import Mathlib

/-!
Shallow embedding of `src/reconnector.py` (sparts-reconnect): a periodic
NetworkManager reconnection daemon. The `NMDBusHelper` query functions and
the `Reconnector.execute` tick are modelled as pure Lean functions over an
explicit snapshot of the remote DBus object state (`Bus`). Remote calls that
can raise `dbus.DBusException` return `Except DBusException _`; Python
`IndexError` / `KeyError` raised by the helper lookups, uncaught bus errors
and the `TryLater` scheduling signal become explicit outcomes of a tick.
-/

set_option autoImplicit false

namespace Reconnect

/-- An opaque `dbus.DBusException` raised by a remote call. The source never
inspects such an error (it is either caught uniformly or propagates). -/
inductive DBusException where
  | exc
  deriving DecidableEq

/-- Python-level errors that can escape the helper lookups during a tick:
`IndexError` raised by `get_wireless_conn_by_ssid` / `get_device_ap_by_ssid`
(the "NotFound" of the spec), `KeyError` from a dict subscript, and an
uncaught `dbus.DBusException`. -/
inductive Err where
  | indexError (msg : String)
  | keyError (key : String)
  | dbusError
  deriving DecidableEq

/-- `KEY_SETTINGS_WIFI = '802-11-wireless'` -/
def KEY_SETTINGS_WIFI : String := "802-11-wireless"

/-- `KEY_SETTINGS_SSID = 'ssid'` -/
def KEY_SETTINGS_SSID : String := "ssid"

/-- `arr_to_str(arr)`: `''.join(chr(b) for b in arr)` — decode a byte/code
point sequence to text, one character per element. -/
def arr_to_str (arr : List Nat) : String :=
  String.mk (arr.map Char.ofNat)

/-- Python dict subscript `bag[k]`: first binding for `k`, or `KeyError`. -/
def dict_get {α : Type} (bag : List (String × α)) (k : String) : Except Err α :=
  match bag.lookup k with
  | some v => .ok v
  | none => .error (.keyError k)

/-- A connection-settings object (`conn = self.get_object(conn_path)`),
identified by its object path; `GetSettings()` returns a dict keyed by
setting group, each group a dict from key to byte array (only the entries
this program reads are modelled). -/
structure Conn where
  path : Nat
  getSettings : List (String × List (String × List Nat))
  deriving DecidableEq

instance instDecEqExcept {ε α : Type} [DecidableEq ε] [DecidableEq α] :
    DecidableEq (Except ε α) := fun a b =>
  match a, b with
  | .ok x, .ok y =>
    if h : x = y then isTrue (congrArg _ h)
    else isFalse (fun hc => h (Except.ok.inj hc))
  | .error x, .error y =>
    if h : x = y then isTrue (congrArg _ h)
    else isFalse (fun hc => h (Except.error.inj hc))
  | .ok _, .error _ => isFalse (fun hc => Except.noConfusion hc)
  | .error _, .ok _ => isFalse (fun hc => Except.noConfusion hc)

/-- A device object, identified by its object path.
`getAllWireless` is the result of the capability probe
`device.GetAll(IFACE_DEVICE_WIRELESS)`; `getAccessPoints` is
`device.GetAccessPoints()` (a list of AP object paths); `getActiveAp` is
`device.Get(IFACE_DEVICE_WIRELESS, PROP_ACTIVE_AP)`. -/
structure Device where
  path : Nat
  getAllWireless : Except DBusException Unit
  getAccessPoints : List Nat
  getActiveAp : Except DBusException Nat
  deriving DecidableEq

/-- A snapshot of the remote service state visible over the bus during one
tick: `nm.GetDevices()`, `settings.ListConnections()`, and the per-AP
property read `ap.Get(IFACE_AP, PROP_SSID)` keyed by AP object path. -/
structure Bus where
  getDevices : List Device
  listConnections : List Conn
  apSsidProp : Nat → Except DBusException (List Nat)

/-- Did `device.GetAll(IFACE_DEVICE_WIRELESS)` succeed? -/
def wireless_probe_ok (d : Device) : Bool :=
  match d.getAllWireless with
  | .ok _ => true
  | .error _ => false

/-- The generator body of `iter_wireless_devices`: yield each device whose
wireless-capability probe succeeds, `continue` past the ones whose probe
raises `dbus.DBusException`. -/
def device_filter : List Device → List Device
  | [] => []
  | d :: rest =>
    match d.getAllWireless with
    | .ok _ => d :: device_filter rest
    | .error _ => device_filter rest

/-- `iter_wireless_devices(self)`. -/
def iter_wireless_devices (bus : Bus) : List Device :=
  device_filter bus.getDevices

/-- `iter_wireless_conns(self)`: yield the connections whose settings dict
contains the `'802-11-wireless'` key. -/
def iter_wireless_conns (bus : Bus) : List Conn :=
  bus.listConnections.filter
    (fun conn => (conn.getSettings.lookup KEY_SETTINGS_WIFI).isSome)

/-- The scan loop of `get_wireless_conn_by_ssid`: for each wireless
connection, decode `settings[KEY_SETTINGS_WIFI][KEY_SETTINGS_SSID]` and
return the first connection whose decoded SSID equals `ssid`; raise
`IndexError` after the scan is exhausted. -/
def conn_scan (ssid : String) : List Conn → Except Err Conn
  | [] => .error (.indexError ("No conn for ssid " ++ ssid))
  | conn :: rest =>
    match dict_get conn.getSettings KEY_SETTINGS_WIFI with
    | .error e => .error e
    | .ok wifi =>
      match dict_get wifi KEY_SETTINGS_SSID with
      | .error e => .error e
      | .ok raw =>
        if arr_to_str raw == ssid then .ok conn else conn_scan ssid rest

/-- `get_wireless_conn_by_ssid(self, ssid)`. -/
def get_wireless_conn_by_ssid (bus : Bus) (ssid : String) : Except Err Conn :=
  conn_scan ssid (iter_wireless_conns bus)

/-- `iter_device_aps(self, device)`: the device's visible access points,
identified by their object paths. -/
def iter_device_aps (device : Device) : List Nat :=
  device.getAccessPoints

/-- `get_ap_ssid(self, ap)`: `arr_to_str(ap.Get(IFACE_AP, PROP_SSID))`; the
remote property read may raise. -/
def get_ap_ssid (bus : Bus) (ap : Nat) : Except DBusException String :=
  (bus.apSsidProp ap).map arr_to_str

/-- The scan loop of `get_device_ap_by_ssid`: read each visible AP's SSID
(an uncaught `dbus.DBusException` propagates), return the first AP whose
decoded SSID equals `ssid`, raise `IndexError` after the scan is
exhausted. -/
def ap_scan (bus : Bus) (ssid : String) : List Nat → Except Err Nat
  | [] => .error (.indexError ("No AP for ssid " ++ ssid))
  | ap :: rest =>
    match bus.apSsidProp ap with
    | .error _ => .error .dbusError
    | .ok raw => if arr_to_str raw == ssid then .ok ap else ap_scan bus ssid rest

/-- `get_device_ap_by_ssid(self, device, ssid)`. -/
def get_device_ap_by_ssid (bus : Bus) (device : Device) (ssid : String) :
    Except Err Nat :=
  ap_scan bus ssid (iter_device_aps device)

/-- `get_device_active_ap(self, device)`: the active-access-point property
read; `get_object` on the returned path always succeeds, so the AP handle
is the path itself. -/
def get_device_active_ap (device : Device) : Except DBusException Nat :=
  device.getActiveAp

/-- The body of the `try:` block in `execute`: read the device's active
access point and decode its SSID. Either remote call may raise
`dbus.DBusException`. -/
def read_active (bus : Bus) (device : Device) : Except DBusException String :=
  match get_device_active_ap device with
  | .error e => .error e
  | .ok active_ap => get_ap_ssid bus active_ap

/-- One `nm.ActivateConnection(wanted_conn.object_path, device.object_path,
wanted_ap.object_path)` call, recorded with its three arguments. -/
structure ActivateReq where
  conn_path : Nat
  device_path : Nat
  ap_path : Nat
  deriving DecidableEq

/-- How a tick ends: falling off the device loop or hitting the `break`
(success); `raise TryLater(msg, after=delay)`; or an uncaught Python
error (fatal tick failure). -/
inductive TickOutcome where
  | success
  | tryLater (msg : String) (after : ℚ)
  | fatal (e : Err)
  deriving DecidableEq

/-- Observable result of one tick: the `ActivateConnection` requests issued,
in order, and how the tick ended. -/
structure TickResult where
  requests : List ActivateReq
  outcome : TickOutcome
  deriving DecidableEq

/-- The `for device in self.iter_wireless_devices():` loop of `execute`.
Per device: read the active AP's SSID (on `dbus.DBusException`, raise
`TryLater("Error getting active AP", after=2.5)`); `break` when it already
equals the target; otherwise resolve the wanted AP (errors propagate) and
issue `ActivateConnection`, then continue with the next device. -/
def device_loop (bus : Bus) (ssid : String) (wanted_conn : Conn) :
    List Device → TickResult
  | [] => ⟨[], .success⟩
  | device :: rest =>
    match read_active bus device with
    | .error _ => ⟨[], .tryLater "Error getting active AP" (2.5 : ℚ)⟩
    | .ok active_ap_ssid =>
      if active_ap_ssid == ssid then ⟨[], .success⟩
      else
        match get_device_ap_by_ssid bus device ssid with
        | .error e => ⟨[], .fatal e⟩
        | .ok wanted_ap =>
          let r := device_loop bus ssid wanted_conn rest
          ⟨⟨wanted_conn.path, device.path, wanted_ap⟩ :: r.requests, r.outcome⟩

/-- `Reconnector.execute(self)`: resolve the target SSID to a stored
connection (an uncaught `IndexError` / `KeyError` fails the tick), then run
the device loop. -/
def execute (bus : Bus) (ssid : String) : TickResult :=
  match get_wireless_conn_by_ssid bus ssid with
  | .error e => ⟨[], .fatal e⟩
  | .ok wanted_conn => device_loop bus ssid wanted_conn (iter_wireless_devices bus)

/-- The access point `get_device_ap_by_ssid` resolves for a device (junk
value when the lookup fails; only used for devices where it succeeds). -/
def apOf (bus : Bus) (ssid : String) (d : Device) : Nat :=
  match get_device_ap_by_ssid bus d ssid with
  | .ok a => a
  | .error _ => 0

/-- The `ActivateConnection` request `execute` issues for a device that
reaches the association step. -/
def reqOf (bus : Bus) (ssid : String) (conn : Conn) (d : Device) : ActivateReq :=
  ⟨conn.path, d.path, apOf bus ssid d⟩

/-- Device `d` falls through one iteration of the loop without breaking or
raising: its active-AP read succeeds with an SSID other than the target,
and the wanted-AP lookup succeeds (so an association request is issued and
the loop continues). -/
def proceeds (bus : Bus) (ssid : String) (d : Device) : Prop :=
  (∃ s, read_active bus d = .ok s ∧ s ≠ ssid) ∧
  (∃ a, get_device_ap_by_ssid bus d ssid = .ok a)

/-- Connection `c` is scanned past by `conn_scan`: its settings contain the
wireless group and the ssid entry, and the decoded SSID differs from the
target. -/
def conn_nonmatch (ssid : String) (c : Conn) : Prop :=
  ∃ wifi raw, c.getSettings.lookup KEY_SETTINGS_WIFI = some wifi ∧
    wifi.lookup KEY_SETTINGS_SSID = some raw ∧ arr_to_str raw ≠ ssid

/-- Access point `a` is scanned past by `ap_scan`: its SSID property read
succeeds and the decoded SSID differs from the target. -/
def ap_nonmatch (bus : Bus) (ssid : String) (a : Nat) : Prop :=
  ∃ raw, bus.apSsidProp a = .ok raw ∧ arr_to_str raw ≠ ssid

/-! Concrete snapshots used to evaluate the model on closed inputs.
AP path 1 broadcasts "Home", AP path 2 broadcasts "Cafe", and the SSID
property read of any other AP path raises. -/

/-- SSID property table for the concrete snapshots. -/
def demo_apSsid : Nat → Except DBusException (List Nat) := fun n =>
  if n = 1 then .ok [72, 111, 109, 101]
  else if n = 2 then .ok [67, 97, 102, 101]
  else .error .exc

/-- A stored wireless profile for SSID "Home". -/
def c_home : Conn :=
  ⟨21, [(KEY_SETTINGS_WIFI, [(KEY_SETTINGS_SSID, [72, 111, 109, 101])])]⟩

/-- A stored non-wireless (ethernet) profile. -/
def c_eth : Conn := ⟨22, [("802-3-ethernet", [])]⟩

/-- A stored wireless profile whose wireless settings lack the ssid entry. -/
def c_nossid : Conn := ⟨23, [(KEY_SETTINGS_WIFI, [("mode", [1])])]⟩

/-- Wireless device associated to "Cafe" that sees "Cafe" then "Home". -/
def d_roam : Device := ⟨11, .ok (), [2, 1], .ok 2⟩

/-- Wireless device associated to "Cafe" that sees only "Home". -/
def d_roam2 : Device := ⟨12, .ok (), [1], .ok 2⟩

/-- Non-wireless device: the capability probe raises. -/
def d_wired : Device := ⟨13, .error .exc, [], .ok 1⟩

/-- Wireless device already associated to "Home". -/
def d_home : Device := ⟨14, .ok (), [1, 2], .ok 1⟩

/-- Wireless device whose active-access-point property read raises. -/
def d_fault : Device := ⟨15, .ok (), [1], .error .exc⟩

/-- Wireless device whose active-AP read yields path 9, whose SSID property
read then raises (the "no active access point" shape). -/
def d_noap : Device := ⟨16, .ok (), [1], .ok 9⟩

/-- Wireless device associated to "Cafe" with no visible "Home" AP. -/
def d_nomatch : Device := ⟨17, .ok (), [2], .ok 2⟩

/-- A stored wireless profile for SSID "Cafe". -/
def c_cafe : Conn :=
  ⟨24, [(KEY_SETTINGS_WIFI, [(KEY_SETTINGS_SSID, [67, 97, 102, 101])])]⟩

/-- Snapshot with two devices both off-target: both get reassociated. -/
def busA : Bus := ⟨[d_roam, d_roam2], [c_eth, c_home], demo_apSsid⟩

/-- Snapshot whose first device is already on the target SSID. -/
def busC2 : Bus := ⟨[d_home, d_roam], [c_home], demo_apSsid⟩

/-- Snapshot with no stored wireless profile at all. -/
def busC3 : Bus := ⟨[d_roam], [c_eth], demo_apSsid⟩

/-- Snapshot whose device's active-AP property read raises. -/
def busC4 : Bus := ⟨[d_fault], [c_home], demo_apSsid⟩

/-- Snapshot whose device sees no access point for the target SSID. -/
def busC5 : Bus := ⟨[d_nomatch], [c_home], demo_apSsid⟩

/-- Snapshot with an ethernet profile and two wireless profiles. -/
def busC6 : Bus := ⟨[], [c_eth, c_cafe, c_home], demo_apSsid⟩

/-- Snapshot whose first wireless profile lacks the ssid settings entry. -/
def busC9 : Bus := ⟨[d_roam], [c_nossid, c_home], demo_apSsid⟩

/-- Snapshot whose device's active-AP SSID property read raises. -/
def busC10 : Bus := ⟨[d_noap], [c_home], demo_apSsid⟩

example :
    execute ⟨[d_roam, d_roam2], [c_eth, c_home], demo_apSsid⟩ "Home" =
      ⟨[⟨21, 11, 1⟩, ⟨21, 12, 1⟩], .success⟩ := by decide

example :
    execute ⟨[d_home, d_roam], [c_home], demo_apSsid⟩ "Home" =
      ⟨[], .success⟩ := by decide

example :
    execute ⟨[d_fault], [c_home], demo_apSsid⟩ "Home" =
      ⟨[], .tryLater "Error getting active AP" 2.5⟩ := rfl

example :
    execute ⟨[d_noap], [c_home], demo_apSsid⟩ "Home" =
      ⟨[], .tryLater "Error getting active AP" 2.5⟩ := rfl

example :
    execute ⟨[d_nomatch], [c_home], demo_apSsid⟩ "Home" =
      ⟨[], .fatal (.indexError "No AP for ssid Home")⟩ := by decide

example :
    execute ⟨[d_roam], [c_eth], demo_apSsid⟩ "Home" =
      ⟨[], .fatal (.indexError "No conn for ssid Home")⟩ := by decide

example :
    execute ⟨[d_roam], [c_nossid, c_home], demo_apSsid⟩ "Home" =
      ⟨[], .fatal (.keyError "ssid")⟩ := by decide

/-! Helper lemmas about the scans and the device loop. -/

lemma device_filter_sublist (l : List Device) :
    List.Sublist (device_filter l) l := by
  induction l with
  | nil => exact List.Sublist.slnil
  | cons d rest ih =>
    cases h : d.getAllWireless with
    | ok u => simpa [device_filter, h] using ih.cons₂ d
    | error e => simpa [device_filter, h] using ih.cons d

lemma device_filter_eq_filter (l : List Device) :
    device_filter l = l.filter wireless_probe_ok := by
  induction l with
  | nil => rfl
  | cons d rest ih =>
    cases h : d.getAllWireless with
    | ok u => simp [device_filter, wireless_probe_ok, h, ih]
    | error e => simp [device_filter, wireless_probe_ok, h, ih]

lemma eq_append_cons_nodup {α : Type} (l pre post : List α) (x : α)
    (h : l = pre ++ x :: post) (hnd : l.Nodup) : x ∉ pre ∧ x ∉ post := by
  subst h
  rw [List.nodup_append] at hnd
  obtain ⟨-, h2, hdis⟩ := hnd
  exact ⟨fun hx => hdis hx (List.mem_cons_self x post), (List.nodup_cons.mp h2).1⟩

lemma conn_scan_nonmatch_cons (ssid : String) (c : Conn) (rest : List Conn)
    (h : conn_nonmatch ssid c) :
    conn_scan ssid (c :: rest) = conn_scan ssid rest := by
  obtain ⟨wifi, raw, h1, h2, h3⟩ := h
  simp [conn_scan, dict_get, h1, h2, h3]

lemma conn_scan_none (ssid : String) (l : List Conn)
    (h : ∀ p ∈ l, conn_nonmatch ssid p) :
    conn_scan ssid l = .error (.indexError ("No conn for ssid " ++ ssid)) := by
  induction l with
  | nil => rfl
  | cons c rest ih =>
    rw [conn_scan_nonmatch_cons ssid c rest (h c (List.mem_cons_self c rest))]
    exact ih (fun p hp => h p (List.mem_cons_of_mem c hp))

lemma conn_scan_first (ssid : String) (pre post : List Conn) (c : Conn)
    (wifi : List (String × List Nat)) (raw : List Nat)
    (hpre : ∀ p ∈ pre, conn_nonmatch ssid p)
    (hwifi : c.getSettings.lookup KEY_SETTINGS_WIFI = some wifi)
    (hraw : wifi.lookup KEY_SETTINGS_SSID = some raw)
    (hm : arr_to_str raw = ssid) :
    conn_scan ssid (pre ++ c :: post) = .ok c := by
  induction pre with
  | nil => simp [conn_scan, dict_get, hwifi, hraw, hm]
  | cons p pre ih =>
    rw [List.cons_append,
      conn_scan_nonmatch_cons ssid p (pre ++ c :: post)
        (hpre p (List.mem_cons_self p pre))]
    exact ih (fun q hq => hpre q (List.mem_cons_of_mem p hq))

lemma conn_scan_keyerror (ssid : String) (pre post : List Conn) (c : Conn)
    (wifi : List (String × List Nat))
    (hpre : ∀ p ∈ pre, conn_nonmatch ssid p)
    (hwifi : c.getSettings.lookup KEY_SETTINGS_WIFI = some wifi)
    (hnossid : wifi.lookup KEY_SETTINGS_SSID = none) :
    conn_scan ssid (pre ++ c :: post) = .error (.keyError KEY_SETTINGS_SSID) := by
  induction pre with
  | nil => simp [conn_scan, dict_get, hwifi, hnossid]
  | cons p pre ih =>
    rw [List.cons_append,
      conn_scan_nonmatch_cons ssid p (pre ++ c :: post)
        (hpre p (List.mem_cons_self p pre))]
    exact ih (fun q hq => hpre q (List.mem_cons_of_mem p hq))

lemma ap_scan_nonmatch_cons (bus : Bus) (ssid : String) (a : Nat) (rest : List Nat)
    (h : ap_nonmatch bus ssid a) :
    ap_scan bus ssid (a :: rest) = ap_scan bus ssid rest := by
  obtain ⟨raw, h1, h2⟩ := h
  simp [ap_scan, h1, h2]

lemma ap_scan_none (bus : Bus) (ssid : String) (l : List Nat)
    (h : ∀ a ∈ l, ap_nonmatch bus ssid a) :
    ap_scan bus ssid l = .error (.indexError ("No AP for ssid " ++ ssid)) := by
  induction l with
  | nil => rfl
  | cons a rest ih =>
    rw [ap_scan_nonmatch_cons bus ssid a rest (h a (List.mem_cons_self a rest))]
    exact ih (fun b hb => h b (List.mem_cons_of_mem a hb))

lemma ap_scan_first (bus : Bus) (ssid : String) (pre post : List Nat) (a : Nat)
    (raw : List Nat)
    (hpre : ∀ b ∈ pre, ap_nonmatch bus ssid b)
    (hraw : bus.apSsidProp a = .ok raw) (hm : arr_to_str raw = ssid) :
    ap_scan bus ssid (pre ++ a :: post) = .ok a := by
  induction pre with
  | nil => simp [ap_scan, hraw, hm]
  | cons b pre ih =>
    rw [List.cons_append,
      ap_scan_nonmatch_cons bus ssid b (pre ++ a :: post)
        (hpre b (List.mem_cons_self b pre))]
    exact ih (fun q hq => hpre q (List.mem_cons_of_mem b hq))

lemma ap_scan_exists (bus : Bus) (ssid : String) (l : List Nat)
    (hall : ∀ a ∈ l, ∃ raw, bus.apSsidProp a = .ok raw)
    (hex : ∃ a ∈ l, ∃ raw, bus.apSsidProp a = .ok raw ∧ arr_to_str raw = ssid) :
    ∃ a, ap_scan bus ssid l = .ok a := by
  induction l with
  | nil => obtain ⟨a, ha, -⟩ := hex; exact absurd ha (List.not_mem_nil a)
  | cons a rest ih =>
    obtain ⟨raw, hraw⟩ := hall a (List.mem_cons_self a rest)
    by_cases hm : arr_to_str raw = ssid
    · exact ⟨a, by simp [ap_scan, hraw, hm]⟩
    · rw [ap_scan_nonmatch_cons bus ssid a rest ⟨raw, hraw, hm⟩]
      apply ih (fun b hb => hall b (List.mem_cons_of_mem a hb))
      obtain ⟨b, hb, raw2, hraw2, hm2⟩ := hex
      rcases List.mem_cons.mp hb with rfl | hb2
      · rw [hraw] at hraw2
        exact absurd (Except.ok.inj hraw2 ▸ hm2) hm
      · exact ⟨b, hb2, raw2, hraw2, hm2⟩

lemma read_active_error_left (bus : Bus) (d : Device) (e : DBusException)
    (h : get_device_active_ap d = .error e) : read_active bus d = .error e := by
  simp [read_active, h]

lemma read_active_error_right (bus : Bus) (d : Device) (ap : Nat) (e : DBusException)
    (h1 : get_device_active_ap d = .ok ap) (h2 : bus.apSsidProp ap = .error e) :
    read_active bus d = .error e := by
  simp [read_active, get_ap_ssid, h1, h2, Except.map]

lemma device_loop_read_error (bus : Bus) (ssid : String) (conn : Conn)
    (d : Device) (rest : List Device) (e : DBusException)
    (h : read_active bus d = .error e) :
    device_loop bus ssid conn (d :: rest) =
      ⟨[], .tryLater "Error getting active AP" 2.5⟩ := by
  simp [device_loop, h]

lemma device_loop_break (bus : Bus) (ssid : String) (conn : Conn)
    (d : Device) (rest : List Device)
    (h : read_active bus d = .ok ssid) :
    device_loop bus ssid conn (d :: rest) = ⟨[], .success⟩ := by
  simp [device_loop, h]

lemma device_loop_ap_error (bus : Bus) (ssid : String) (conn : Conn)
    (d : Device) (rest : List Device) (s : String) (e : Err)
    (hr : read_active bus d = .ok s) (hne : s ≠ ssid)
    (ha : get_device_ap_by_ssid bus d ssid = .error e) :
    device_loop bus ssid conn (d :: rest) = ⟨[], .fatal e⟩ := by
  simp [device_loop, hr, hne, ha]

lemma device_loop_proceeds_cons (bus : Bus) (ssid : String) (conn : Conn)
    (d : Device) (rest : List Device) (h : proceeds bus ssid d) :
    device_loop bus ssid conn (d :: rest) =
      ⟨reqOf bus ssid conn d :: (device_loop bus ssid conn rest).requests,
        (device_loop bus ssid conn rest).outcome⟩ := by
  obtain ⟨⟨s, hs, hne⟩, a, ha⟩ := h
  simp [device_loop, hs, hne, ha, reqOf, apOf]

lemma device_loop_append (bus : Bus) (ssid : String) (conn : Conn)
    (pre rest : List Device) (h : ∀ d ∈ pre, proceeds bus ssid d) :
    device_loop bus ssid conn (pre ++ rest) =
      ⟨pre.map (reqOf bus ssid conn) ++ (device_loop bus ssid conn rest).requests,
        (device_loop bus ssid conn rest).outcome⟩ := by
  induction pre with
  | nil => simp
  | cons d pre ih =>
    rw [List.cons_append,
      device_loop_proceeds_cons bus ssid conn d (pre ++ rest)
        (h d (List.mem_cons_self d pre)),
      ih (fun p hp => h p (List.mem_cons_of_mem d hp))]
    simp

lemma device_loop_paths (bus : Bus) (ssid : String) (conn : Conn)
    (ds : List Device) :
    ∀ r ∈ (device_loop bus ssid conn ds).requests,
      r.device_path ∈ ds.map Device.path := by
  induction ds with
  | nil => intro r hr; simp [device_loop] at hr
  | cons d rest ih =>
    intro r hr
    cases hread : read_active bus d with
    | error e =>
      rw [device_loop_read_error bus ssid conn d rest e hread] at hr
      simp at hr
    | ok s =>
      by_cases hb : s = ssid
      · rw [hb] at hread
        rw [device_loop_break bus ssid conn d rest hread] at hr
        simp at hr
      · cases hap : get_device_ap_by_ssid bus d ssid with
        | error e =>
          rw [device_loop_ap_error bus ssid conn d rest s e hread hb hap] at hr
          simp at hr
        | ok a =>
          rw [device_loop_proceeds_cons bus ssid conn d rest
            ⟨⟨s, hread, hb⟩, a, hap⟩] at hr
          rcases List.mem_cons.mp hr with rfl | hr2
          · simp [reqOf]
          · simp only [List.map_cons, List.mem_cons]
            exact Or.inr (ih r hr2)

lemma filter_map_reqOf (bus : Bus) (ssid : String) (conn : Conn)
    (pre : List Device) (x : Nat) (h : x ∉ pre.map Device.path) :
    List.filter (fun r => r.device_path == x) (pre.map (reqOf bus ssid conn)) = [] := by
  rw [List.filter_eq_nil_iff]
  intro r hr
  obtain ⟨d, hd, rfl⟩ := List.mem_map.mp hr
  simp only [reqOf, beq_iff_eq]
  intro hdx
  exact h (hdx ▸ List.mem_map_of_mem Device.path hd)

lemma filter_loop_requests (bus : Bus) (ssid : String) (conn : Conn)
    (ds : List Device) (x : Nat) (h : x ∉ ds.map Device.path) :
    List.filter (fun r => r.device_path == x)
      (device_loop bus ssid conn ds).requests = [] := by
  rw [List.filter_eq_nil_iff]
  intro r hr
  simp only [beq_iff_eq]
  intro hx
  exact h (hx ▸ device_loop_paths bus ssid conn ds r hr)

lemma iter_nodup_split (bus : Bus) (pre post : List Device) (d : Device)
    (hnd : (bus.getDevices.map Device.path).Nodup)
    (hdevs : iter_wireless_devices bus = pre ++ d :: post) :
    d.path ∉ pre.map Device.path ∧ d.path ∉ post.map Device.path := by
  have hsub : List.Sublist ((iter_wireless_devices bus).map Device.path)
      (bus.getDevices.map Device.path) :=
    (device_filter_sublist bus.getDevices).map Device.path
  have hnd2 : ((pre ++ d :: post).map Device.path).Nodup := by
    rw [← hdevs]; exact List.Nodup.sublist hsub hnd
  rw [List.map_append, List.map_cons] at hnd2
  exact eq_append_cons_nodup _ (pre.map Device.path) (post.map Device.path)
    d.path rfl hnd2

/-! Claim theorems. -/

/-- C8: Wireless device enumeration yields exactly those devices enumerated
by the service whose wireless-capability probe (the `GetAll` property read)
succeeds; a device whose probe raises is silently excluded, and the
enumeration itself raises no error (it is a total function on the
snapshot). -/
theorem C8_device_enumeration_probe_filter (bus : Bus) :
    iter_wireless_devices bus = bus.getDevices.filter wireless_probe_ok ∧
    ∀ d : Device, d ∈ iter_wireless_devices bus ↔
      d ∈ bus.getDevices ∧ d.getAllWireless = .ok () := by
  refine ⟨device_filter_eq_filter bus.getDevices, fun d => ?_⟩
  rw [iter_wireless_devices, device_filter_eq_filter, List.mem_filter]
  have hiff : wireless_probe_ok d = true ↔ d.getAllWireless = .ok () := by
    cases h : d.getAllWireless with
    | ok u => cases u; simp [wireless_probe_ok, h]
    | error e => simp [wireless_probe_ok, h]
  exact and_congr_right (fun _ => hiff)

/-- C6: The profile lookup is a first-match linear scan over the wireless
connection profiles in enumeration order, decoding each candidate's SSID
bytes and comparing for exact equality: it returns the first profile whose
decoded SSID equals the target, and raises `IndexError` (NotFound) when no
wireless profile matches. -/
theorem C6_profile_lookup_first_match (bus : Bus) (ssid : String) :
    (∀ (pre post : List Conn) (c : Conn) (wifi : List (String × List Nat))
        (raw : List Nat),
      iter_wireless_conns bus = pre ++ c :: post →
      (∀ p ∈ pre, conn_nonmatch ssid p) →
      c.getSettings.lookup KEY_SETTINGS_WIFI = some wifi →
      wifi.lookup KEY_SETTINGS_SSID = some raw →
      arr_to_str raw = ssid →
      get_wireless_conn_by_ssid bus ssid = .ok c) ∧
    ((∀ p ∈ iter_wireless_conns bus, conn_nonmatch ssid p) →
      get_wireless_conn_by_ssid bus ssid =
        .error (.indexError ("No conn for ssid " ++ ssid))) := by
  constructor
  · intro pre post c wifi raw hiter hpre hwifi hraw hm
    rw [get_wireless_conn_by_ssid, hiter]
    exact conn_scan_first ssid pre post c wifi raw hpre hwifi hraw hm
  · intro h
    rw [get_wireless_conn_by_ssid]
    exact conn_scan_none ssid _ h

theorem C6_witness :
    get_wireless_conn_by_ssid busC6 "Home" = .ok c_home ∧
    get_wireless_conn_by_ssid busC6 "Paris" =
      .error (.indexError "No conn for ssid Paris") := by
  refine ⟨(C6_profile_lookup_first_match busC6 "Home").1 [c_cafe] [] c_home
      [(KEY_SETTINGS_SSID, [72, 111, 109, 101])] [72, 111, 109, 101]
      (by decide) ?_ (by decide) (by decide) (by decide),
    (C6_profile_lookup_first_match busC6 "Paris").2 ?_⟩
  · intro p hp
    rcases List.mem_cons.mp hp with rfl | hp2
    · exact ⟨[(KEY_SETTINGS_SSID, [67, 97, 102, 101])], [67, 97, 102, 101],
        by decide, by decide, by decide⟩
    · exact absurd hp2 (List.not_mem_nil p)
  · intro p hp
    rw [show iter_wireless_conns busC6 = [c_cafe, c_home] by decide] at hp
    rcases List.mem_cons.mp hp with rfl | hp2
    · exact ⟨[(KEY_SETTINGS_SSID, [67, 97, 102, 101])], [67, 97, 102, 101],
        by decide, by decide, by decide⟩
    · rcases List.mem_cons.mp hp2 with rfl | hp3
      · exact ⟨[(KEY_SETTINGS_SSID, [72, 111, 109, 101])], [72, 111, 109, 101],
          by decide, by decide, by decide⟩
      · exact absurd hp3 (List.not_mem_nil p)

/-- C3: When no stored wireless profile's decoded SSID equals the target,
the tick fails fatally with `IndexError` (NotFound) and issues no
association request; moreover the result is the same whatever the device
list and access-point state are, so no device is inspected and no retry is
scheduled. -/
theorem C3_no_profile_fatal (bus : Bus) (ssid : String)
    (h : ∀ p ∈ iter_wireless_conns bus, conn_nonmatch ssid p) :
    execute bus ssid = ⟨[], .fatal (.indexError ("No conn for ssid " ++ ssid))⟩ ∧
    ∀ (ds : List Device) (f : Nat → Except DBusException (List Nat)),
      execute ⟨ds, bus.listConnections, f⟩ ssid =
        ⟨[], .fatal (.indexError ("No conn for ssid " ++ ssid))⟩ := by
  have hc : get_wireless_conn_by_ssid bus ssid =
      .error (.indexError ("No conn for ssid " ++ ssid)) :=
    conn_scan_none ssid _ h
  constructor
  · simp [execute, hc]
  · intro ds f
    have hc2 : get_wireless_conn_by_ssid ⟨ds, bus.listConnections, f⟩ ssid =
        .error (.indexError ("No conn for ssid " ++ ssid)) := hc
    simp [execute, hc2]

theorem C3_witness :
    execute busC3 "Home" = ⟨[], .fatal (.indexError "No conn for ssid Home")⟩ := by
  refine (C3_no_profile_fatal busC3 "Home" ?_).1
  intro p hp
  rw [show iter_wireless_conns busC3 = [] by decide] at hp
  exact absurd hp (List.not_mem_nil p)

/-- C9: The NotFound outcome of the profile lookup presupposes that every
scanned wireless profile's settings carry the ssid entry: when a profile
reached by the scan has the wireless group but no ssid entry, the lookup
raises `KeyError` — an error distinct from `IndexError` (NotFound) and
caught by no handler — and the tick fails fatally with it. -/
theorem C9_missing_ssid_key_raises_keyerror (bus : Bus) (ssid : String)
    (pre post : List Conn) (c : Conn) (wifi : List (String × List Nat))
    (hiter : iter_wireless_conns bus = pre ++ c :: post)
    (hpre : ∀ p ∈ pre, conn_nonmatch ssid p)
    (hwifi : c.getSettings.lookup KEY_SETTINGS_WIFI = some wifi)
    (hnossid : wifi.lookup KEY_SETTINGS_SSID = none) :
    get_wireless_conn_by_ssid bus ssid = .error (.keyError KEY_SETTINGS_SSID) ∧
    (execute bus ssid).outcome = .fatal (.keyError KEY_SETTINGS_SSID) ∧
    ∀ m : String, Err.keyError KEY_SETTINGS_SSID ≠ Err.indexError m := by
  have hc : get_wireless_conn_by_ssid bus ssid =
      .error (.keyError KEY_SETTINGS_SSID) := by
    rw [get_wireless_conn_by_ssid, hiter]
    exact conn_scan_keyerror ssid pre post c wifi hpre hwifi hnossid
  exact ⟨hc, by simp [execute, hc], fun m h => Err.noConfusion h⟩

theorem C9_witness :
    (execute busC9 "Home").outcome = .fatal (.keyError "ssid") := by
  refine (C9_missing_ssid_key_raises_keyerror busC9 "Home" [] [c_home] c_nossid
    [("mode", [1])] (by decide) ?_ (by decide) (by decide)).2.1
  intro p hp
  exact absurd hp (List.not_mem_nil p)

/-- C2: When the device loop reaches a device whose active access point's
decoded SSID equals the target, it issues no association request for that
device, stops processing all further devices (the `break`), and the tick
succeeds; the only requests issued are those of the earlier devices. -/
theorem C2_already_connected_breaks (bus : Bus) (ssid : String) (conn : Conn)
    (pre post : List Device) (d : Device)
    (hnd : (bus.getDevices.map Device.path).Nodup)
    (hconn : get_wireless_conn_by_ssid bus ssid = .ok conn)
    (hdevs : iter_wireless_devices bus = pre ++ d :: post)
    (hpre : ∀ p ∈ pre, proceeds bus ssid p)
    (hread : read_active bus d = .ok ssid) :
    (execute bus ssid).requests = pre.map (reqOf bus ssid conn) ∧
    (execute bus ssid).outcome = .success ∧
    List.filter (fun r => r.device_path == d.path)
      (execute bus ssid).requests = [] := by
  have hexe : execute bus ssid = device_loop bus ssid conn (pre ++ d :: post) := by
    simp [execute, hconn, hdevs]
  rw [hexe, device_loop_append bus ssid conn pre (d :: post) hpre,
    device_loop_break bus ssid conn d post hread]
  obtain ⟨hnp, -⟩ := iter_nodup_split bus pre post d hnd hdevs
  refine ⟨by simp, rfl, ?_⟩
  show List.filter _ (pre.map (reqOf bus ssid conn) ++ []) = []
  rw [List.append_nil]
  exact filter_map_reqOf bus ssid conn pre d.path hnp

theorem C2_witness :
    (execute busC2 "Home").requests = [] ∧
    (execute busC2 "Home").outcome = .success := by
  have h := C2_already_connected_breaks busC2 "Home" c_home [] [d_roam] d_home
    (by decide) (by decide) (by decide)
    (fun p hp => absurd hp (List.not_mem_nil p)) (by decide)
  exact ⟨h.1.trans List.map_nil, h.2.1⟩

/-- C4: When the device loop reaches a device whose active-access-point
read (the `try:` block) raises a bus error, the tick does not fail fatally:
it ends with `TryLater` at the fixed delay 2.5, and no association request
is issued for that device in that tick. -/
theorem C4_active_ap_read_retry (bus : Bus) (ssid : String) (conn : Conn)
    (pre post : List Device) (d : Device) (e : DBusException)
    (hnd : (bus.getDevices.map Device.path).Nodup)
    (hconn : get_wireless_conn_by_ssid bus ssid = .ok conn)
    (hdevs : iter_wireless_devices bus = pre ++ d :: post)
    (hpre : ∀ p ∈ pre, proceeds bus ssid p)
    (hread : read_active bus d = .error e) :
    (execute bus ssid).requests = pre.map (reqOf bus ssid conn) ∧
    (execute bus ssid).outcome = .tryLater "Error getting active AP" 2.5 ∧
    List.filter (fun r => r.device_path == d.path)
      (execute bus ssid).requests = [] := by
  have hexe : execute bus ssid = device_loop bus ssid conn (pre ++ d :: post) := by
    simp [execute, hconn, hdevs]
  rw [hexe, device_loop_append bus ssid conn pre (d :: post) hpre,
    device_loop_read_error bus ssid conn d post e hread]
  obtain ⟨hnp, -⟩ := iter_nodup_split bus pre post d hnd hdevs
  refine ⟨by simp, rfl, ?_⟩
  show List.filter _ (pre.map (reqOf bus ssid conn) ++ []) = []
  rw [List.append_nil]
  exact filter_map_reqOf bus ssid conn pre d.path hnp

theorem C4_witness :
    (execute busC4 "Home").requests = [] ∧
    (execute busC4 "Home").outcome = .tryLater "Error getting active AP" 2.5 := by
  have h := C4_active_ap_read_retry busC4 "Home" c_home [] [] d_fault .exc
    (by decide) (by decide) (by decide)
    (fun p hp => absurd hp (List.not_mem_nil p)) (by decide)
  exact ⟨h.1.trans List.map_nil, h.2.1⟩

/-- C10: The transient-retry handler covers both remote calls of the
`try:` block — the active-access-point reference read and the SSID decode
of that access point: whichever of the two raises, the tick ends with the
2.5-delay `TryLater` and the device never reaches the association step. In
particular a device with no active access point, whose SSID property read
then raises, yields the retry outcome. -/
theorem C10_retry_covers_both_reads (bus : Bus) (ssid : String) (conn : Conn)
    (pre post : List Device) (d : Device)
    (hnd : (bus.getDevices.map Device.path).Nodup)
    (hconn : get_wireless_conn_by_ssid bus ssid = .ok conn)
    (hdevs : iter_wireless_devices bus = pre ++ d :: post)
    (hpre : ∀ p ∈ pre, proceeds bus ssid p)
    (hfail : (∃ e, get_device_active_ap d = .error e) ∨
      (∃ ap e, get_device_active_ap d = .ok ap ∧ bus.apSsidProp ap = .error e)) :
    (execute bus ssid).requests = pre.map (reqOf bus ssid conn) ∧
    (execute bus ssid).outcome = .tryLater "Error getting active AP" 2.5 ∧
    List.filter (fun r => r.device_path == d.path)
      (execute bus ssid).requests = [] := by
  have hread : ∃ e, read_active bus d = .error e := by
    rcases hfail with ⟨e, he⟩ | ⟨ap, e, h1, h2⟩
    · exact ⟨e, read_active_error_left bus d e he⟩
    · exact ⟨e, read_active_error_right bus d ap e h1 h2⟩
  obtain ⟨e, hread⟩ := hread
  have hexe : execute bus ssid = device_loop bus ssid conn (pre ++ d :: post) := by
    simp [execute, hconn, hdevs]
  rw [hexe, device_loop_append bus ssid conn pre (d :: post) hpre,
    device_loop_read_error bus ssid conn d post e hread]
  obtain ⟨hnp, -⟩ := iter_nodup_split bus pre post d hnd hdevs
  refine ⟨by simp, rfl, ?_⟩
  show List.filter _ (pre.map (reqOf bus ssid conn) ++ []) = []
  rw [List.append_nil]
  exact filter_map_reqOf bus ssid conn pre d.path hnp

theorem C10_witness :
    (execute busC10 "Home").requests = [] ∧
    (execute busC10 "Home").outcome = .tryLater "Error getting active AP" 2.5 := by
  have h := C10_retry_covers_both_reads busC10 "Home" c_home [] [] d_noap
    (by decide) (by decide) (by decide)
    (fun p hp => absurd hp (List.not_mem_nil p))
    (Or.inr ⟨9, .exc, by decide, by decide⟩)
  exact ⟨h.1.trans List.map_nil, h.2.1⟩

/-- C5: The per-device access-point lookup raises `IndexError` (NotFound)
when no visible access point's decoded SSID equals the target; when exactly
one visible access point matches, it returns that access point; and in the
tick, a NotFound from this lookup propagates and fails the whole tick
(fatal outcome) rather than skipping to the next device. -/
theorem C5_ap_lookup_not_found_propagates (bus : Bus) (ssid : String) :
    (∀ d : Device, (∀ a ∈ iter_device_aps d, ap_nonmatch bus ssid a) →
      get_device_ap_by_ssid bus d ssid =
        .error (.indexError ("No AP for ssid " ++ ssid))) ∧
    (∀ (d : Device) (pre post : List Nat) (a : Nat) (raw : List Nat),
      iter_device_aps d = pre ++ a :: post →
      (∀ b ∈ pre, ap_nonmatch bus ssid b) →
      (∀ b ∈ post, ap_nonmatch bus ssid b) →
      bus.apSsidProp a = .ok raw → arr_to_str raw = ssid →
      get_device_ap_by_ssid bus d ssid = .ok a) ∧
    (∀ (conn : Conn) (pre post : List Device) (d : Device) (s m : String),
      get_wireless_conn_by_ssid bus ssid = .ok conn →
      iter_wireless_devices bus = pre ++ d :: post →
      (∀ p ∈ pre, proceeds bus ssid p) →
      read_active bus d = .ok s → s ≠ ssid →
      get_device_ap_by_ssid bus d ssid = .error (.indexError m) →
      (execute bus ssid).outcome = .fatal (.indexError m)) := by
  refine ⟨?_, ?_, ?_⟩
  · intro d h
    exact ap_scan_none bus ssid (iter_device_aps d) h
  · intro d pre post a raw haps hpre hpost hraw hm
    rw [get_device_ap_by_ssid, haps]
    exact ap_scan_first bus ssid pre post a raw hpre hraw hm
  · intro conn pre post d s m hconn hdevs hpre hread hne hap
    have hexe : execute bus ssid = device_loop bus ssid conn (pre ++ d :: post) := by
      simp [execute, hconn, hdevs]
    rw [hexe, device_loop_append bus ssid conn pre (d :: post) hpre,
      device_loop_ap_error bus ssid conn d post s (.indexError m) hread hne hap]

theorem C5_witness :
    get_device_ap_by_ssid busC5 d_nomatch "Home" =
      .error (.indexError "No AP for ssid Home") ∧
    get_device_ap_by_ssid busC5 d_roam "Home" = .ok 1 ∧
    (execute busC5 "Home").outcome = .fatal (.indexError "No AP for ssid Home") := by
  refine ⟨(C5_ap_lookup_not_found_propagates busC5 "Home").1 d_nomatch ?_,
    (C5_ap_lookup_not_found_propagates busC5 "Home").2.1 d_roam [2] [] 1
      [72, 111, 109, 101] (by decide) ?_
      (fun b hb => absurd hb (List.not_mem_nil b)) (by decide) (by decide),
    (C5_ap_lookup_not_found_propagates busC5 "Home").2.2 c_home [] [] d_nomatch
      "Cafe" "No AP for ssid Home" (by decide) (by decide)
      (fun p hp => absurd hp (List.not_mem_nil p)) (by decide) (by decide)
      (by decide)⟩
  · intro a ha
    rw [show iter_device_aps d_nomatch = [2] by decide] at ha
    rcases List.mem_cons.mp ha with rfl | ha2
    · exact ⟨[67, 97, 102, 101], by decide, by decide⟩
    · exact absurd ha2 (List.not_mem_nil a)
  · intro b hb
    rcases List.mem_cons.mp hb with rfl | hb2
    · exact ⟨[67, 97, 102, 101], by decide, by decide⟩
    · exact absurd hb2 (List.not_mem_nil b)

/-- C1: When the device loop reaches a device whose active access point's
decoded SSID differs from the target while every visible access point's
SSID read succeeds and at least one matches the target, the tick issues
exactly one association request for that device, carrying the resolved
profile handle, that device's handle, and the resolved access-point
handle. -/
theorem C1_one_request_per_mismatched_device (bus : Bus) (ssid : String)
    (conn : Conn) (pre post : List Device) (d : Device) (s : String)
    (hnd : (bus.getDevices.map Device.path).Nodup)
    (hconn : get_wireless_conn_by_ssid bus ssid = .ok conn)
    (hdevs : iter_wireless_devices bus = pre ++ d :: post)
    (hpre : ∀ p ∈ pre, proceeds bus ssid p)
    (hread : read_active bus d = .ok s) (hne : s ≠ ssid)
    (hall : ∀ a ∈ iter_device_aps d, ∃ raw, bus.apSsidProp a = .ok raw)
    (hone : ∃ a ∈ iter_device_aps d, ∃ raw, bus.apSsidProp a = .ok raw ∧
      arr_to_str raw = ssid) :
    ∃ ap, get_device_ap_by_ssid bus d ssid = .ok ap ∧
      List.filter (fun r => r.device_path == d.path)
        (execute bus ssid).requests = [⟨conn.path, d.path, ap⟩] := by
  obtain ⟨ap, hap⟩ := ap_scan_exists bus ssid (iter_device_aps d) hall hone
  refine ⟨ap, hap, ?_⟩
  have hproc : proceeds bus ssid d := ⟨⟨s, hread, hne⟩, ap, hap⟩
  have hexe : execute bus ssid =
      device_loop bus ssid conn ((pre ++ [d]) ++ post) := by
    rw [List.append_assoc, List.singleton_append]
    simp [execute, hconn, hdevs]
  have hpre2 : ∀ p ∈ pre ++ [d], proceeds bus ssid p := by
    intro p hp
    rcases List.mem_append.mp hp with h | h
    · exact hpre p h
    · have hpd := List.mem_singleton.mp h
      subst hpd
      exact hproc
  rw [hexe, device_loop_append bus ssid conn (pre ++ [d]) post hpre2]
  obtain ⟨hnp, hns⟩ := iter_nodup_split bus pre post d hnd hdevs
  show List.filter _ ((pre ++ [d]).map (reqOf bus ssid conn) ++
    (device_loop bus ssid conn post).requests) = _
  rw [List.map_append, List.append_assoc, List.filter_append, List.filter_append,
    filter_map_reqOf bus ssid conn pre d.path hnp,
    filter_loop_requests bus ssid conn post d.path hns]
  simp [reqOf, apOf, get_device_ap_by_ssid, hap]

theorem C1_witness :
    ∃ ap, get_device_ap_by_ssid busA d_roam "Home" = .ok ap ∧
      List.filter (fun r => r.device_path == d_roam.path)
        (execute busA "Home").requests = [⟨c_home.path, d_roam.path, ap⟩] := by
  refine C1_one_request_per_mismatched_device busA "Home" c_home [] [d_roam2]
    d_roam "Cafe" (by decide) (by decide) (by decide)
    (fun p hp => absurd hp (List.not_mem_nil p)) (by decide) (by decide)
    ?_ ⟨1, by decide, [72, 111, 109, 101], by decide, by decide⟩
  intro a ha
  rw [show iter_device_aps d_roam = [2, 1] by decide] at ha
  rcases List.mem_cons.mp ha with rfl | ha2
  · exact ⟨[67, 97, 102, 101], by decide⟩
  · rcases List.mem_cons.mp ha2 with rfl | ha3
    · exact ⟨[72, 111, 109, 101], by decide⟩
    · exact absurd ha3 (List.not_mem_nil a)

/-- C7: The device loop does not stop after issuing an association request:
when every enumerated wireless device falls through (active SSID read
succeeds and differs from the target, wanted-AP lookup succeeds), every one
of them — in enumeration order — receives its own association request in
the same tick, and the tick succeeds. -/
theorem C7_loop_continues_after_request (bus : Bus) (ssid : String) (conn : Conn)
    (hconn : get_wireless_conn_by_ssid bus ssid = .ok conn)
    (hall : ∀ d ∈ iter_wireless_devices bus, proceeds bus ssid d) :
    (execute bus ssid).requests =
      (iter_wireless_devices bus).map (reqOf bus ssid conn) ∧
    (execute bus ssid).outcome = .success := by
  have h2 := device_loop_append bus ssid conn (iter_wireless_devices bus) [] hall
  rw [List.append_nil] at h2
  have hexe : execute bus ssid =
      device_loop bus ssid conn (iter_wireless_devices bus) := by
    simp [execute, hconn]
  rw [hexe, h2]
  exact ⟨by simp [device_loop], rfl⟩

theorem C7_witness :
    (execute busA "Home").requests = [⟨21, 11, 1⟩, ⟨21, 12, 1⟩] ∧
    (execute busA "Home").outcome = .success := by
  have hall : ∀ d ∈ iter_wireless_devices busA, proceeds busA "Home" d := by
    intro d hd
    rw [show iter_wireless_devices busA = [d_roam, d_roam2] by decide] at hd
    rcases List.mem_cons.mp hd with rfl | hd2
    · exact ⟨⟨"Cafe", by decide, by decide⟩, 1, by decide⟩
    · rcases List.mem_cons.mp hd2 with rfl | hd3
      · exact ⟨⟨"Cafe", by decide, by decide⟩, 1, by decide⟩
      · exact absurd hd3 (List.not_mem_nil d)
  have h := C7_loop_continues_after_request busA "Home" c_home (by decide) hall
  exact ⟨h.1.trans (by decide), h.2⟩

end Reconnect
